import Mathlib

/-!
Verification development for the Covalent dispatcher core.

This file is a shallow embedding, in Lean 4, of the parts of the code base
that the specification talks about:

* `covalent_dispatcher/_core/execution.py` — task-input assembly
  (`_get_task_inputs`), the task runner (`_run_task`), the wave scheduler
  (`_run_planned_workflow`) and the dispatcher entry point (`run_workflow`);
* `covalent/_data_store/datastore.py` — the transactional session
  (`WorkflowDB.begin_session` / `DataStoreSession`);
* `covalent_dispatcher/_db/dispatchdb.py` — the JSON encoding of a `Result`
  (`result_encoder` / `encode_result`).

Python host values are modelled by the inductive type `PyVal`; machine time
(`datetime.now`) is modelled by a monotone tick counter threaded through the
scheduler state, so that every call of `now()` is a distinct clock reading;
exceptions are modelled by `Except String` (the string is the exception's
message) or by an `Option String` component of a returned pair when the source
mutates state in place before raising.

Collaborators whose code is not part of the analysed sources (the transport
graph container, the executor plugins, the futures registry, `simplejson`) are
modelled from the specification's description of their interface, and are
carried as explicit parameters wherever the analysed code calls into them.
-/

namespace Covalent

/-- Workflow/node status values, from `Result`'s status constants
(spec section 6, "Terminal status values"). -/
inductive Status where
  | NEW_OBJECT
  | RUNNING
  | COMPLETED
  | FAILED
  | CANCELLED
  | POSTPROCESSING
  | PENDING_POSTPROCESSING
  | POSTPROCESSING_FAILED
deriving DecidableEq, Repr

/-- Model of a Python host value as it flows through the dispatcher:
`tobj v` models a `TransportableObject` wrapping the value `v`, `vobj`
models an object through its attribute dictionary. -/
inductive PyVal where
  | vnone
  | vint (n : Int)
  | vstr (s : String)
  | vbool (b : Bool)
  | vlist (xs : List PyVal)
  | vdict (kvs : List (String × PyVal))
  | vobj (attrs : List (String × PyVal))
  | tobj (v : PyVal)
deriving Repr

/-- Executable model of Python's `str.startswith`, recursing over the
character lists of the two strings (Lean's own `String.startsWith` does not
reduce inside the kernel). -/
def charsStartWith : List Char → List Char → Bool
  | _, [] => true
  | [], _ :: _ => false
  | c :: cs, d :: ds => c == d && charsStartWith cs ds

/-- Does the string `s` start with the marker `p`?  Models `s.startswith(p)`. -/
def strStartsWith (s p : String) : Bool :=
  charsStartWith s.data p.data

/-- Modelled from the spec: node-name marker for literal parameter nodes
(spec section 6 marker table; `covalent/_shared_files/defaults.py` is not
among the analysed sources). -/
def parameter_marker : String := ":parameter:"

/-- Modelled from the spec: node-name marker for subscript nodes. -/
def subscript_marker : String := ":subscript:"

/-- Modelled from the spec: node-name marker for attribute nodes. -/
def attr_marker : String := ":attribute:"

/-- Modelled from the spec: node-name marker for generator-projection nodes. -/
def generator_marker : String := ":generator:"

/-- Modelled from the spec: node-name marker for list-collection nodes. -/
def electron_list_marker : String := ":electron_list:"

/-- Modelled from the spec: node-name marker for dict-collection nodes. -/
def electron_dict_marker : String := ":electron_dict:"

/-- Modelled from the spec: node-name marker for sublattice nodes. -/
def sublattice_marker : String := ":sublattice:"

/-- Models `TransportableObject.make_transportable`: wrap a host value,
leaving a value that is already transportable unchanged. -/
def make_transportable : PyVal → PyVal
  | .tobj v => .tobj v
  | v => .tobj v

/-- One parameter-binding record of a graph edge, as read by
`_get_task_inputs` from `get_edge_data`: the `edge_name` and `param_type`
keys of the edge-attribute dictionary. -/
structure EdgeData where
  edge_name : String
  param_type : String
deriving DecidableEq, Repr

/-- Static attributes of one transport-graph node, as read through
`get_node_value`: `name`, the parameter payload `value`, the subscript
`key`, the `attribute_name`, and the selected executor short-name. -/
structure TGNode where
  name : String
  value : PyVal
  key : PyVal
  attribute_name : String
  executor : String
deriving Repr

instance : Inhabited TGNode := ⟨⟨"", .vnone, .vnone, "", ""⟩⟩

/-- Modelled from the spec: the transport-graph container
(`covalent/_workflow/transport.py` is not among the analysed sources).
`deps i` is `get_dependencies(i)` (parents in edge-insertion order, spec
section 4.1); `edges` is the association list backing
`get_edge_data(parent, child)` (parallel edges preserved, in insertion
order); `layers` is `get_topologically_sorted_graph()`. -/
structure TransportGraph where
  nodes : List TGNode
  deps : List (List Nat)
  edges : List ((Nat × Nat) × List EdgeData)
  layers : List (List Nat)
deriving Repr

/-- Node attribute bag of node `i` (defaulting like an absent node). -/
def TransportGraph.getNode (g : TransportGraph) (i : Nat) : TGNode :=
  g.nodes.getD i default

/-- Models `transport_graph.get_dependencies(i)`. -/
def TransportGraph.get_dependencies (g : TransportGraph) (i : Nat) : List Nat :=
  g.deps.getD i []

/-- Lookup of the edge records between a parent and a child node. -/
def edgesLookup (es : List ((Nat × Nat) × List EdgeData)) (p c : Nat) : List EdgeData :=
  match es with
  | [] => []
  | (pc, ds) :: rest => if pc = (p, c) then ds else edgesLookup rest p c

/-- Models `transport_graph.get_edge_data(parent, child)`: the (parallel)
edge records between the two nodes, in insertion order. -/
def TransportGraph.get_edge_data (g : TransportGraph) (p c : Nat) : List EdgeData :=
  edgesLookup g.edges p c

/-- Models `transport_graph.get_node_value(i, "name")`. -/
def TransportGraph.get_node_name (g : TransportGraph) (i : Nat) : String :=
  (g.getNode i).name

/-- The `{args, kwargs}` dictionary produced by `_get_task_inputs`. -/
structure TaskInput where
  args : List PyVal
  kwargs : List (String × PyVal)
deriving Repr

/-- Python dictionary assignment `d[k] = v` on an association list:
overwrite an existing binding in place, else append. -/
def dictInsert (kvs : List (String × PyVal)) (k : String) (v : PyVal) :
    List (String × PyVal) :=
  if kvs.any (fun p => p.fst == k) then
    kvs.map (fun p => if p.fst == k then (k, v) else p)
  else
    kvs ++ [(k, v)]

/-- Models `result_object.lattice.transport_graph.get_node_value(parent,
"output")`: reading a parent output that was never produced raises. -/
def getNodeOutput (outputs : Nat → Option PyVal) (p : Nat) : Except String PyVal :=
  match outputs p with
  | some v => .ok v
  | none => .error "KeyError: output"

/-- The list-collection gather of `_get_task_inputs`: parents' outputs,
in the order `get_dependencies` returns the parents. -/
def collectListValues (outputs : Nat → Option PyVal) :
    List Nat → Except String (List PyVal)
  | [] => .ok []
  | p :: ps => do
      let v ← getNodeOutput outputs p
      let vs ← collectListValues outputs ps
      .ok (v :: vs)

/-- The dict-collection gather of `_get_task_inputs`: for every parent and
every edge record of that parent, bind `edge_name` to the parent's output
(the source loop does not inspect `param_type` here). -/
def collectDictValues (g : TransportGraph) (outputs : Nat → Option PyVal)
    (node_id : Nat) :
    List Nat → List (String × PyVal) → Except String (List (String × PyVal))
  | [], acc => .ok acc
  | p :: ps, acc => do
      let edge_data := g.get_edge_data p node_id
      let v ← getNodeOutput outputs p
      collectDictValues g outputs node_id ps
        (edge_data.foldl (fun a d => dictInsert a d.edge_name v) acc)

/-- One parent's contribution in the regular branch of `_get_task_inputs`:
`"arg"` edges append to `args`, `"kwarg"` edges bind `kwargs[edge_name]`,
any other `param_type` (in particular `"wait_only"`) contributes nothing. -/
def addRegularEdges (v : PyVal) : List EdgeData → TaskInput → TaskInput
  | [], ti => ti
  | d :: ds, ti =>
      addRegularEdges v ds
        (if d.param_type == "arg" then
          { ti with args := ti.args ++ [v] }
        else if d.param_type == "kwarg" then
          { ti with kwargs := dictInsert ti.kwargs d.edge_name v }
        else ti)

/-- The regular branch of `_get_task_inputs`: walk the parents in
`get_dependencies` order, folding each parent's edge records into the
accumulated `args`/`kwargs`. -/
def collectRegular (g : TransportGraph) (outputs : Nat → Option PyVal)
    (node_id : Nat) : List Nat → TaskInput → Except String TaskInput
  | [], ti => .ok ti
  | p :: ps, ti => do
      let edge_data := g.get_edge_data p node_id
      let v ← getNodeOutput outputs p
      collectRegular g outputs node_id ps (addRegularEdges v edge_data ti)

/-- Model of `_get_task_inputs(node_id, node_name, result_object)`
(`execution.py` lines 92-142): the three branches keyed on the node-name
marker, with `outputs` standing for the graph's per-node `"output"`
attribute. -/
def _get_task_inputs (g : TransportGraph) (outputs : Nat → Option PyVal)
    (node_id : Nat) (node_name : String) : Except String TaskInput :=
  if strStartsWith node_name electron_list_marker then do
    let vs ← collectListValues outputs (g.get_dependencies node_id)
    .ok ⟨[], [("x", make_transportable (.vlist vs))]⟩
  else if strStartsWith node_name electron_dict_marker then do
    let kvs ← collectDictValues g outputs node_id (g.get_dependencies node_id) []
    .ok ⟨[], [("x", make_transportable (.vdict kvs))]⟩
  else
    collectRegular g outputs node_id (g.get_dependencies node_id) ⟨[], []⟩

/-! ## Task runner (`_run_task`, `execution.py` lines 189-333) -/

/-- Model of the `Result` of a sublattice sub-dispatch, as read from the
process-wide futures registry: its terminal status and its
`encoded_result` (the encoded final value). -/
structure SubResult where
  status : Status
  encoded_result : PyVal
deriving Repr

/-- Model of the dictionary built by `generate_node_result`
(`execution.py` lines 67-89); every field not passed defaults to `None`. -/
structure NodeResult where
  node_id : Int
  start_time : Option Nat
  end_time : Option Nat
  status : Option Status
  output : Option PyVal
  error : Option String
  stdout : Option String
  stderr : Option String
  sublattice_result : Option SubResult
deriving Repr

/-- Model of `"".join(traceback.TracebackException.from_exception(ex).format())`:
the rendering of an exception (modelled by its message) as a traceback text. -/
def renderTraceback (e : String) : String :=
  "Traceback (most recent call last):\n" ++ e

/-- The `FAILED` node result built by `_run_task`'s outer `except` clause:
only `end_time`, `status` and the rendered traceback are set. -/
def failedNodeResult (nid : Int) (clock : Nat) (e : String) : NodeResult :=
  { node_id := nid, start_time := none, end_time := some clock,
    status := some .FAILED, output := none,
    error := some (renderTraceback e), stdout := none, stderr := none,
    sublattice_result := none }

/-- Model of `_run_task` (`execution.py` lines 189-333).

The collaborators the function calls into are passed as outcome parameters:
`resolveExecutor` is the first `try` block (unpacking `selected_executor`,
`_executor_manager.get_executor`, `executor.from_dict`); `executeOutcome` is
the call `executor.execute(...)` (its `(output, stdout, stderr)` triple, or
the exception it raised); `workflow_executor_short` is the short-name
component of `workflow_executor`; `subDispatch` is the inner
`dispatch_sublattice` future combined with `json.loads` (the sub-dispatch id,
or the exception raised while obtaining it); `subLookup` is
`futures[sub_dispatch_id].result()`, with `none` modelling a falsy result
(the `if not sublattice_result` guard); `clock` is the tick `datetime.now`
returns inside the function.

An exception raised while resolving the executor is re-raised (`raise ex`),
so it surfaces as `Except.error`; every exception inside the second `try`
block is caught and turned into a `FAILED` node result. -/
def _run_task (node_id : Int) (node_name : String)
    (resolveExecutor : Except String Unit)
    (executeOutcome : Except String (PyVal × String × String))
    (workflow_executor_short : String)
    (subDispatch : Except String String)
    (subLookup : String → Option SubResult)
    (clock : Nat) : Except String NodeResult :=
  match resolveExecutor with
  | .error ex => .error ex
  | .ok _ =>
    .ok <|
      if strStartsWith node_name sublattice_marker then
        if workflow_executor_short == "client" then
          failedNodeResult node_id clock "No executor selected for dispatching sublattices"
        else
          match subDispatch with
          | .error ex => failedNodeResult node_id clock ex
          | .ok sub_dispatch_id =>
            match subLookup sub_dispatch_id with
            | none => failedNodeResult node_id clock "Sublattice execution failed"
            | some sublattice_result =>
              let base : NodeResult :=
                { node_id := node_id, start_time := none, end_time := some clock,
                  status := some .COMPLETED,
                  output := some sublattice_result.encoded_result,
                  error := none, stdout := none, stderr := none,
                  sublattice_result := some sublattice_result }
              if sublattice_result.status = .COMPLETED then base
              else { base with status := some .FAILED,
                               error := some "Sublattice workflow failed to complete" }
      else
        match executeOutcome with
        | .ok (output, out_s, err_s) =>
          { node_id := node_id, start_time := none, end_time := some clock,
            status := some .COMPLETED, output := some output,
            error := none, stdout := some out_s, stderr := some err_s,
            sublattice_result := none }
        | .error ex => failedNodeResult node_id clock ex

/-! ## Wave scheduler (`_run_planned_workflow`, `execution.py` lines 336-617) -/

/-- Per-node mutable state held by the `Result` object. -/
structure NodeState where
  status : Status
  output : Option PyVal
  error : Option String
  stdout : Option String
  stderr : Option String
  start_time : Option Nat
  end_time : Option Nat
  sublattice_result : Option SubResult
deriving Repr

/-- The state of a freshly initialized node. -/
def initialNodeState : NodeState :=
  ⟨.NEW_OBJECT, none, none, none, none, none, none, none⟩

instance : Inhabited NodeState := ⟨initialNodeState⟩

/-- The mutable state of the `Result` object during one dispatch, together
with two pieces of instrumentation the theorems refer to: `submitted` is the
log of node ids handed to the worker pool (in submission order) and
`pp_submitted` records whether a post-processing task was submitted.
The `clock` is the tick counter behind `datetime.now`. -/
structure WorkflowState where
  status : Status
  error : Option String
  result : Option PyVal
  start_time : Option Nat
  end_time : Option Nat
  node_states : List NodeState
  submitted : List Nat
  pp_submitted : Bool
  clock : Nat
deriving Repr

/-- One reading of `datetime.now(timezone.utc)`: returns the current tick
and advances the clock, so distinct calls yield distinct instants. -/
def WorkflowState.tick (st : WorkflowState) : Nat × WorkflowState :=
  (st.clock, { st with clock := st.clock + 1 })

/-- The state of node `i` (a node outside the graph reads as fresh). -/
def WorkflowState.getNodeState (st : WorkflowState) (i : Nat) : NodeState :=
  st.node_states.getD i default

/-- Overwrite the state of node `i`. -/
def WorkflowState.setNodeState (st : WorkflowState) (i : Nat) (ns : NodeState) :
    WorkflowState :=
  { st with node_states := st.node_states.set i ns }

/-- The terminal node-result a task submitted to the worker pool comes back
with, abstracting the record `_run_task` returns for that node (plus the
`CANCELLED` status the scan loop of the scheduler also handles). -/
inductive TaskOutcome where
  | completed (output : PyVal) (out_s err_s : String)
  | failed (error : String)
  | cancelled
deriving Repr

/-- The completion callback `update_node_result`: merge a task's terminal
node-result into the `Result` store (its `end_time` is a fresh clock
reading taken inside `_run_task`). -/
def applyOutcome (st : WorkflowState) (node_id : Nat) (o : TaskOutcome) :
    WorkflowState :=
  let (t, st') := st.tick
  let ns := st'.getNodeState node_id
  match o with
  | .completed out so se =>
      st'.setNodeState node_id
        { ns with status := .COMPLETED, output := some out,
                  stdout := some so, stderr := some se, end_time := some t }
  | .failed e =>
      st'.setNodeState node_id
        { ns with status := .FAILED, error := some e, end_time := some t }
  | .cancelled =>
      st'.setNodeState node_id
        { ns with status := .CANCELLED, end_time := some t }

/-- Python-style lookup in an attribute or dictionary association list. -/
def pyLookup : List (String × PyVal) → String → Option PyVal
  | [], _ => none
  | (k, v) :: rest, s => if k == s then some v else pyLookup rest s

/-- Model of Python `output[key]` for the values the graph carries:
integer indexing into a list, string lookup in a dict; anything else
raises (returns `none`). -/
def pyIndex : PyVal → PyVal → Option PyVal
  | .vlist xs, .vint n => if n < 0 then none else xs.get? n.toNat
  | .vdict kvs, .vstr s => pyLookup kvs s
  | _, _ => none

/-- Model of Python `getattr(output, attr)`. -/
def pyGetattr : PyVal → String → Option PyVal
  | .vobj attrs, a => pyLookup attrs a
  | _, _ => none

/-- The marker test of `execution.py` line 380: is this node evaluated
inline (parameter, subscript, attribute, generator-projection)? -/
def isPureName (name : String) : Bool :=
  strStartsWith name subscript_marker || strStartsWith name generator_marker ||
  strStartsWith name parameter_marker || strStartsWith name attr_marker

/-- Inline evaluation of a pure node (`execution.py` lines 383-396):
parameter nodes read their `value` attribute; the others read the sole
parent's output, then attribute nodes apply `getattr` with
`attribute_name` while subscript and generator nodes index by `key`.
`none` models an exception (empty parent list, missing parent output,
failing `getattr`/indexing), which propagates out of the scheduler. -/
def computePureOutput (g : TransportGraph) (st : WorkflowState) (node_id : Nat) :
    Option PyVal :=
  let name := g.get_node_name node_id
  if strStartsWith name parameter_marker then some (g.getNode node_id).value
  else
    match g.get_dependencies node_id with
    | [] => none
    | parent :: _ =>
      match (st.getNodeState parent).output with
      | none => none
      | some out =>
        if strStartsWith name attr_marker then
          pyGetattr out (g.getNode node_id).attribute_name
        else
          pyIndex out (g.getNode node_id).key

/-- Processing of one node inside a wave (`execution.py` lines 376-503):
pure nodes are computed inline and recorded `COMPLETED` with two fresh
clock readings as `start_time` and `end_time`; every other node gets its
inputs assembled, is marked `RUNNING` with `start_time` now, is appended
to the submission log, and has its terminal outcome merged back by the
completion callback.  The second component is the exception the iteration
raised, if any (it propagates out of `_run_planned_workflow`). -/
def runNode (g : TransportGraph) (oracle : Nat → TaskOutcome) (node_id : Nat)
    (st : WorkflowState) : WorkflowState × Option String :=
  let name := g.get_node_name node_id
  if isPureName name then
    match computePureOutput g st node_id with
    | none => (st, some "Exception during inline evaluation")
    | some out =>
      let (t1, st1) := st.tick
      let (t2, st2) := st1.tick
      let ns := st2.getNodeState node_id
      (st2.setNodeState node_id
        { ns with status := .COMPLETED, start_time := some t1,
                  end_time := some t2, output := some out }, none)
  else
    match _get_task_inputs g (fun i => (st.getNodeState i).output) node_id name with
    | .error e => (st, some e)
    | .ok _task_input =>
      let (t, st1) := st.tick
      let ns := st1.getNodeState node_id
      let st2 := st1.setNodeState node_id
        { ns with status := .RUNNING, start_time := some t }
      let st3 := { st2 with submitted := st2.submitted ++ [node_id] }
      (applyOutcome st3 node_id (oracle node_id), none)

/-- Processing of one wave: the nodes of a layer in order, stopping at the
first exception. -/
def runLayerNodes (g : TransportGraph) (oracle : Nat → TaskOutcome) :
    List Nat → WorkflowState → WorkflowState × Option String
  | [], st => (st, none)
  | n :: ns, st =>
    match runNode g oracle n st with
    | (st', some e) => (st', some e)
    | (st', none) => runLayerNodes g oracle ns st'

/-- Python `f"...{x}"` rendering of an optional string (an unset error
renders as `"None"`). -/
def optStr : Option String → String
  | some s => s
  | none => "None"

/-- The workflow state the scheduler returns when the wave scan finds node
`n` `FAILED` (`execution.py` lines 512-515): status `FAILED`, `end_time`
now, error `"Node <name> failed: \n<error>"`. -/
def failState (g : TransportGraph) (st : WorkflowState) (n : Nat) : WorkflowState :=
  { st with status := .FAILED, end_time := some st.clock, clock := st.clock + 1,
            error := some ("Node " ++ g.get_node_name n ++ " failed: \n" ++
                           optStr (st.getNodeState n).error) }

/-- The workflow state the scheduler returns when the wave scan finds a
node `CANCELLED` (`execution.py` lines 522-524). -/
def cancelState (st : WorkflowState) : WorkflowState :=
  { st with status := .CANCELLED, end_time := some st.clock, clock := st.clock + 1 }

/-- The scan loop over a completed wave (`execution.py` lines 511-529):
walk the layer in order; the first node found `FAILED` or `CANCELLED`
makes the whole workflow terminate with the corresponding state
(`some`); otherwise the scan falls through (`none`). -/
def scanLayer (g : TransportGraph) : List Nat → WorkflowState → Option WorkflowState
  | [], _ => none
  | n :: ns, st =>
    if (st.getNodeState n).status = .FAILED then some (failState g st n)
    else if (st.getNodeState n).status = .CANCELLED then some (cancelState st)
    else scanLayer g ns st

/-- The first node of a layer, in scan order, whose status is `FAILED` or
`CANCELLED`. -/
def firstBadNode (st : WorkflowState) : List Nat → Option Nat
  | [] => none
  | n :: ns =>
    if (st.getNodeState n).status = .FAILED ∨ (st.getNodeState n).status = .CANCELLED
    then some n
    else firstBadNode st ns

/-- Outcome of the layer loop: the final state, an uncaught exception if
one was raised, and whether the loop returned early from a wave scan. -/
structure SchedResult where
  state : WorkflowState
  exc : Option String
  aborted : Bool
deriving Repr

/-- The layer loop of `_run_planned_workflow` (`execution.py` lines
373-529): run each wave, then scan it; a `FAILED`/`CANCELLED` node ends
the dispatch (`aborted = true`) and later layers are never processed. -/
def runLayers (g : TransportGraph) (oracle : Nat → TaskOutcome) :
    List (List Nat) → WorkflowState → SchedResult
  | [], st => ⟨st, none, false⟩
  | L :: rest, st =>
    match runLayerNodes g oracle L st with
    | (st', some e) => ⟨st', some e, false⟩
    | (st', none) =>
      match scanLayer g L st' with
      | some st'' => ⟨st'', none, true⟩
      | none => runLayers g oracle rest st'

/-- The prologue of `_run_planned_workflow` (lines 362-364): mark the
result `RUNNING` and stamp `start_time`. -/
def startRun (st : WorkflowState) : WorkflowState :=
  let st1 := { st with status := Status.RUNNING }
  let (t, st2) := st1.tick
  { st2 with start_time := some t }

/-- Model of `_run_planned_workflow` (`execution.py` lines 336-617).
`oracle` gives each submitted task's terminal node-result; `pp_executor`
is the lattice's `workflow_executor` short-name; `ppOutcome` is the
node-result of the post-processing task, were one submitted.  The second
component of the result is the exception that escaped the function, if
any (the `Result` object is mutated in place up to the raise point). -/
def _run_planned_workflow (g : TransportGraph) (oracle : Nat → TaskOutcome)
    (pp_executor : String) (ppOutcome : TaskOutcome) (st0 : WorkflowState) :
    WorkflowState × Option String :=
  match runLayers g oracle g.layers (startRun st0) with
  | ⟨st, some e, _⟩ => (st, some e)
  | ⟨st, none, true⟩ => (st, none)
  | ⟨st, none, false⟩ =>
    let st := { st with status := Status.POSTPROCESSING }
    if pp_executor == "client" then
      let (t, st) := st.tick
      ({ st with status := .PENDING_POSTPROCESSING, end_time := some t }, none)
    else
      let st := { st with pp_submitted := true }
      match ppOutcome with
      | .completed out _ _ =>
        let (t, st) := st.tick
        ({ st with result := some out, status := .COMPLETED, end_time := some t }, none)
      | .failed _ =>
        let (t, st) := st.tick
        ({ st with status := .POSTPROCESSING_FAILED,
                   error := some "Post-processing failed: None",
                   end_time := some t }, none)
      | .cancelled =>
        let (t, st) := st.tick
        ({ st with status := .POSTPROCESSING_FAILED,
                   error := some "Post-processing failed: None",
                   end_time := some t }, none)

/-- The freshly initialized `Result` of a dispatch
(`Result(lattice, ...)` followed by `_initialize_nodes()`). -/
def initialState (g : TransportGraph) : WorkflowState :=
  { status := .NEW_OBJECT, error := none, result := none,
    start_time := none, end_time := none,
    node_states := List.replicate g.nodes.length initialNodeState,
    submitted := [], pp_submitted := false, clock := 0 }

/-- Model of `run_workflow` (`execution.py` lines 642-684): build the
fresh result, return it untouched if already `COMPLETED` (redispatch),
otherwise plan (a no-op) and run the workflow; any exception escaping the
run is caught and turned into a `FAILED` result carrying the rendered
traceback, with `end_time` stamped. -/
def run_workflow (g : TransportGraph) (oracle : Nat → TaskOutcome)
    (pp_executor : String) (ppOutcome : TaskOutcome) : WorkflowState :=
  let st0 := initialState g
  if st0.status = Status.COMPLETED then st0
  else
    match _run_planned_workflow g oracle pp_executor ppOutcome st0 with
    | (st, none) => st
    | (st, some e) =>
      let (t, st') := st.tick
      { st' with status := .FAILED, end_time := some t,
                 error := some (renderTraceback e) }

/-! ## Dispatch store session (`datastore.py` lines 88-148) -/

/-- Argument tuple queued by `DataStoreSession.queue_upload`:
`(data, storage_type, storage_path, file_name)`. -/
structure UploadArg where
  data : String
  storage_type : String
  storage_path : String
  file_name : String
deriving DecidableEq, Repr

/-- Argument tuple queued by `DataStoreSession.queue_delete`:
`(storage_type, storage_path, file_name)`. -/
structure DeleteArg where
  storage_type : String
  storage_path : String
  file_name : String
deriving DecidableEq, Repr

/-- Model of the `DataStoreSession` handed to the body of
`WorkflowDB.begin_session`: the two side-queues, in queued order. -/
structure DataStoreSession where
  pending_uploads : List UploadArg
  pending_deletes : List DeleteArg
deriving DecidableEq, Repr

/-- One statement of the code block running inside `begin_session`:
a write on the wrapped transaction, a `queue_upload`, a `queue_delete`,
or an exception. -/
inductive SessionOp where
  | write (row : String)
  | queue_upload (u : UploadArg)
  | queue_delete (d : DeleteArg)
  | raiseExc (e : String)
deriving DecidableEq, Repr

/-- The transaction writes and side-queues accumulated while the body of
the `with` block runs. -/
structure SessionState where
  tx_writes : List String
  session : DataStoreSession
deriving DecidableEq, Repr

/-- The empty session state handed to the body at `yield`. -/
def freshSessionState : SessionState := ⟨[], ⟨[], []⟩⟩

/-- Run the body of the `with begin_session()` block: execute its
statements in order, stopping at the first raised exception. -/
def runSessionBody : List SessionOp → SessionState → SessionState × Option String
  | [], s => (s, none)
  | op :: ops, s =>
    match op with
    | .write w => runSessionBody ops { s with tx_writes := s.tx_writes ++ [w] }
    | .queue_upload u =>
        runSessionBody ops
          { s with session := { s.session with
              pending_uploads := s.session.pending_uploads ++ [u] } }
    | .queue_delete d =>
        runSessionBody ops
          { s with session := { s.session with
              pending_deletes := s.session.pending_deletes ++ [d] } }
    | .raiseExc e => (s, some e)

/-- One observable mutation performed by `begin_session` after the body:
the transaction commit or rollback, and each drained upload and delete
(in the order they are performed). -/
inductive StoreEvent where
  | commit
  | rollback
  | fileUpload (u : UploadArg)
  | fileDelete (d : DeleteArg)
deriving DecidableEq, Repr

/-- Model of `WorkflowDB.begin_session` (`datastore.py` lines 88-107)
around a body of statements `ops`, starting from the durable rows `db`.
On normal completion of the body the transaction is committed (the
`tx_writes` become durable) and then the pending uploads and deletes are
drained in queued order; on an exception the transaction is rolled back
and the exception is re-raised, with no storage mutation.  The result is
the durable rows, the ordered log of store events, and the re-raised
exception if any.  The storage backend (`upload_file` / `delete_file`) is
modelled from the spec as an effect that succeeds, since no concrete
backend is among the analysed sources. -/
def begin_session (ops : List SessionOp) (db : List String) :
    List String × List StoreEvent × Option String :=
  match runSessionBody ops freshSessionState with
  | (s, none) =>
      (db ++ s.tx_writes,
       StoreEvent.commit ::
         (s.session.pending_uploads.map StoreEvent.fileUpload ++
          s.session.pending_deletes.map StoreEvent.fileDelete),
       none)
  | (_, some e) => (db, [StoreEvent.rollback], some e)

/-! ## Result JSON encoding (`dispatchdb.py` lines 100-133) -/

/-- A Python value handed to `simplejson.dumps` inside `encode_result`:
the JSON-native shapes, plus float `NaN`, plus the three shapes the
`default` hook `result_encoder` has to handle — a `Status` (carrying its
`STATUS` tag), a `datetime` (carrying its `isoformat()` rendering), and
any other unserializable object (carrying its `str()` coercion). -/
inductive SVal where
  | sNone
  | sBool (b : Bool)
  | sInt (n : Int)
  | sNan
  | sStr (s : String)
  | sList (xs : List SVal)
  | sDict (kvs : List (String × SVal))
  | sStatus (tag : String)
  | sDatetime (iso : String)
  | sOther (strRepr : String)
deriving Repr

/-- A JSON document, as produced by `simplejson.dumps`. -/
inductive Json where
  | jnull
  | jbool (b : Bool)
  | jint (n : Int)
  | jstr (s : String)
  | jarr (xs : List Json)
  | jobj (kvs : List (String × Json))
deriving Repr

/-- Model of `result_encoder` (`dispatchdb.py` lines 100-105), the
`default` hook `simplejson.dumps` calls on a value it cannot serialize
natively: a `Status` renders as its `STATUS` tag, a `datetime` as its
`isoformat()`, anything else as `str(obj)`.  On JSON-native values
(where the hook is never consulted) it returns `none`. -/
def result_encoder : SVal → Option String
  | .sStatus tag => some tag
  | .sDatetime iso => some iso
  | .sOther r => some r
  | _ => none

mutual

/-- Model of `simplejson.dumps(result_dict, default=result_encoder,
ignore_nan=True)` on one value: JSON-native values pass through,
`ignore_nan=True` serializes `NaN` as `null` (simplejson's documented
behaviour for out-of-range floats), and the non-native values go through
the `default` hook `result_encoder`, whose string result is serialized. -/
def dumps : SVal → Json
  | .sNone => .jnull
  | .sBool b => .jbool b
  | .sInt n => .jint n
  | .sNan => .jnull
  | .sStr s => .jstr s
  | .sList xs => .jarr (dumpsList xs)
  | .sDict kvs => .jobj (dumpsDict kvs)
  | .sStatus tag => .jstr tag
  | .sDatetime iso => .jstr iso
  | .sOther r => .jstr r

/-- Elementwise serialization of a JSON array. -/
def dumpsList : List SVal → List Json
  | [] => []
  | x :: xs => dumps x :: dumpsList xs

/-- Pairwise serialization of a JSON object. -/
def dumpsDict : List (String × SVal) → List (String × Json)
  | [] => []
  | (k, v) :: kvs => (k, dumps v) :: dumpsDict kvs

end

/-- The fields of a `Result` that `encode_result` reads, with the parts
built from external collaborators (`get_named_params`, the lattice
sub-document, the node-link graph extraction) abstracted as opaque
already-built values. -/
structure ResultModel where
  dispatch_id : String
  status_tag : String
  result_val : SVal
  start_iso : Option String
  end_iso : Option String
  results_dir : String
  error_msg : Option String
  lattice_doc : SVal
  graph_doc : SVal
deriving Repr

/-- A `Result` timestamp as a value of the result dictionary: a
`datetime`, or `None` when unset. -/
def timeField : Option String → SVal
  | some iso => .sDatetime iso
  | none => .sNone

/-- An optional string field of the result dictionary. -/
def strField : Option String → SVal
  | some s => .sStr s
  | none => .sNone

/-- The `result_dict` literal built by `encode_result`
(`dispatchdb.py` lines 113-129). -/
def result_dict (r : ResultModel) : SVal :=
  .sDict [("dispatch_id", .sStr r.dispatch_id),
          ("status", .sStatus r.status_tag),
          ("result", r.result_val),
          ("start_time", timeField r.start_iso),
          ("end_time", timeField r.end_iso),
          ("results_dir", .sStr r.results_dir),
          ("error", strField r.error_msg),
          ("lattice", r.lattice_doc),
          ("graph", r.graph_doc)]

/-- Model of `encode_result` (`dispatchdb.py` lines 108-133): serialize
the result dictionary with `result_encoder` as `default` and
`ignore_nan=True`. -/
def encode_result (r : ResultModel) : Json :=
  dumps (result_dict r)

/-- Key lookup in the pair list of a JSON object. -/
def jsonPairsLookup (k : String) : List (String × Json) → Option Json
  | [] => none
  | (k', v) :: rest => if k' == k then some v else jsonPairsLookup k rest

/-- Key lookup in a serialized JSON object. -/
def jsonLookup (k : String) : Json → Option Json
  | .jobj kvs => jsonPairsLookup k kvs
  | _ => none

/-! ## Auxiliary definitions used by the theorems -/

/-- Does `_run_task` return a node result (rather than raise)? -/
def returnsNodeResult : Except String NodeResult → Bool
  | .ok _ => true
  | .error _ => false

/-- The graph with every `wait_only` edge record deleted (dependencies and
nodes unchanged). -/
def removeWaitEdges (g : TransportGraph) : TransportGraph :=
  { g with edges :=
      g.edges.map (fun e =>
        (e.fst, List.filter (fun d => !(d.param_type == "wait_only")) e.snd)) }

/-- The graph with every `wait_only` edge record relabelled as a `kwarg`
edge (same `edge_name`). -/
def relabelWaitEdges (g : TransportGraph) : TransportGraph :=
  { g with edges :=
      g.edges.map (fun e =>
        (e.fst, List.map (fun d =>
          if d.param_type = "wait_only" then { d with param_type := "kwarg" }
          else d) e.snd)) }

/-- The graph with every edge record deleted (dependencies unchanged). -/
def dropEdges (g : TransportGraph) : TransportGraph :=
  { g with edges := [] }

/-- Graph used to check claim C4 on concrete inputs: node 1 is a
dict-collection node and node 2 a list-collection node, each with the
single parent 0 connected only through a `wait_only` edge. -/
def c4Graph : TransportGraph :=
  { nodes := [⟨"p0", .vnone, .vnone, "", "local"⟩,
              ⟨":electron_dict:d", .vnone, .vnone, "", "local"⟩,
              ⟨":electron_list:l", .vnone, .vnone, "", "local"⟩],
    deps := [[], [0], [0]],
    edges := [((0, 1), [⟨"!waiting_edge", "wait_only"⟩]),
              ((0, 2), [⟨"!waiting_edge", "wait_only"⟩])],
    layers := [[0], [1, 2]] }

/-- Parent outputs used with `c4Graph` and `c5Graph`. -/
def c4Outputs : Nat → Option PyVal :=
  fun i => if i = 0 then some (.tobj (.vint 7)) else none

/-- The keys of the dict-collection kwarg `x` of an assembled input. -/
def xDictKeys (r : Except String TaskInput) : List String :=
  match r with
  | .ok ti =>
    match pyLookup ti.kwargs "x" with
    | some (.tobj (.vdict kvs)) => kvs.map Prod.fst
    | _ => []
  | .error _ => []

/-- The length of the list-collection kwarg `x` of an assembled input. -/
def xListLen (r : Except String TaskInput) : Nat :=
  match r with
  | .ok ti =>
    match pyLookup ti.kwargs "x" with
    | some (.tobj (.vlist vs)) => vs.length
    | _ => 0
  | .error _ => 0

/-- Graph used to check claim C5 on concrete inputs: the list-collection
node 3 has parents `[2, 1]` in edge-insertion order (descending ids). -/
def c5Graph : TransportGraph :=
  { nodes := [⟨"p0", .vnone, .vnone, "", "local"⟩,
              ⟨"p1", .vnone, .vnone, "", "local"⟩,
              ⟨"p2", .vnone, .vnone, "", "local"⟩,
              ⟨":electron_list:l", .vnone, .vnone, "", "local"⟩],
    deps := [[], [], [], [2, 1]],
    edges := [((2, 3), [⟨"x", "arg"⟩]), ((1, 3), [⟨"x", "arg"⟩])],
    layers := [[0, 1, 2], [3]] }

/-- Parent outputs used with `c5Graph`. -/
def c5Outputs : Nat → Option PyVal :=
  fun i => if i = 1 then some (.tobj (.vint 10))
           else if i = 2 then some (.tobj (.vint 20)) else none

/-- The integer payload of a transportable-wrapped integer. -/
def tobjInt : PyVal → Int
  | .tobj (.vint n) => n
  | _ => 0

/-- The integer payloads of the list-collection kwarg `x`. -/
def xListInts (r : Except String TaskInput) : List Int :=
  match r with
  | .ok ti =>
    match pyLookup ti.kwargs "x" with
    | some (.tobj (.vlist vs)) => vs.map tobjInt
    | _ => []
  | .error _ => []

/-- Graph used to check claim C1 on concrete inputs: two regular task
nodes in one wave. -/
def c1Graph : TransportGraph :=
  { nodes := [⟨"t0", .vnone, .vnone, "", "local"⟩,
              ⟨"t1", .vnone, .vnone, "", "local"⟩],
    deps := [[], []],
    edges := [],
    layers := [[0, 1]] }

/-- Task outcomes for `c1Graph`: node 0 is cancelled, node 1 fails. -/
def c1Oracle : Nat → TaskOutcome :=
  fun i => if i = 0 then TaskOutcome.cancelled else .failed "boom"

/-- Graph with a single failing task node, for the error-format check of
claim C1. -/
def c1bGraph : TransportGraph :=
  { nodes := [⟨"t1", .vnone, .vnone, "", "local"⟩],
    deps := [[]],
    edges := [],
    layers := [[0]] }

/-- Task outcomes for `c1bGraph`: the node fails with traceback
`"boom"`. -/
def c1bOracle : Nat → TaskOutcome := fun _ => TaskOutcome.failed "boom"

/-- Graph for the witness of claim C1: node 0 fails, node 1 completes,
and a second layer follows. -/
def c1wGraph : TransportGraph :=
  { nodes := [⟨"t0", .vnone, .vnone, "", "local"⟩,
              ⟨"t1", .vnone, .vnone, "", "local"⟩,
              ⟨"t2", .vnone, .vnone, "", "local"⟩],
    deps := [[], [], []],
    edges := [],
    layers := [[0, 1], [2]] }

/-- Task outcomes for `c1wGraph`. -/
def c1wOracle : Nat → TaskOutcome :=
  fun i => if i = 0 then TaskOutcome.failed "boom" else .completed .vnone "" ""

/-- The scheduler state at the start of `c1wGraph`'s first wave. -/
def c1wSt0 : WorkflowState := startRun (initialState c1wGraph)

/-- The scheduler state after `c1wGraph`'s first wave has run. -/
def c1wSt2 : WorkflowState := (runLayerNodes c1wGraph c1wOracle [0, 1] c1wSt0).1

/-- Graph used to check claim C7 on concrete inputs: one parameter node,
so every wave succeeds. -/
def c7Graph : TransportGraph :=
  { nodes := [⟨":parameter:5", .tobj (.vint 5), .vnone, "", "local"⟩],
    deps := [[]],
    edges := [],
    layers := [[0]] }

/-- Task outcomes for `c7Graph` (never consulted: the node is pure). -/
def c7Oracle : Nat → TaskOutcome := fun _ => TaskOutcome.cancelled

/-- The fresh result state for `c7Graph`. -/
def c7Init : WorkflowState := initialState c7Graph

/-- The state after all of `c7Graph`'s waves have run. -/
def c7St1 : WorkflowState :=
  (runLayers c7Graph c7Oracle c7Graph.layers (startRun c7Init)).state

/-- Graph used to check claim C8 on concrete inputs: one parameter
node. -/
def c8Graph : TransportGraph :=
  { nodes := [⟨":parameter:7", .tobj (.vint 7), .vnone, "", "local"⟩],
    deps := [[]],
    edges := [],
    layers := [[0]] }

/-- Task outcomes for `c8Graph` (never consulted). -/
def c8Oracle : Nat → TaskOutcome := fun _ => TaskOutcome.cancelled

/-- The fresh result state for `c8Graph`. -/
def c8Init : WorkflowState := initialState c8Graph

/-- Graph used to check claim C10 on concrete inputs: the task node 0
reads the output of parent 1, which never ran, so input assembly
raises. -/
def c10Graph : TransportGraph :=
  { nodes := [⟨"t0", .vnone, .vnone, "", "local"⟩,
              ⟨"p1", .vnone, .vnone, "", "local"⟩],
    deps := [[1], []],
    edges := [((1, 0), [⟨"x", "kwarg"⟩])],
    layers := [[0]] }

/-- Task outcomes for `c10Graph` (the submission is never reached). -/
def c10Oracle : Nat → TaskOutcome := fun _ => TaskOutcome.completed .vnone "" ""

/-- The state `_run_planned_workflow` leaves behind when it raises on
`c10Graph`. -/
def c10St : WorkflowState :=
  (_run_planned_workflow c10Graph c10Oracle "local"
    (TaskOutcome.completed .vnone "" "") (initialState c10Graph)).1

/-! ## Theorems -/

/-- C6: for every use of a Dispatch Store session, if the body completes
normally the transaction is committed first and then every queued upload
and every queued delete is performed, in queue order (the event log is
exactly the commit followed by the uploads followed by the deletes); if
the body raises, the transaction is rolled back, the exception is
re-raised, and the durable rows and the storage are untouched (the only
event is the rollback). -/
theorem c6_session_commit_then_drain (ops : List SessionOp) (db : List String)
    (s : SessionState) (e : String) :
    (runSessionBody ops freshSessionState = (s, none) →
      begin_session ops db =
        (db ++ s.tx_writes,
         StoreEvent.commit ::
           (s.session.pending_uploads.map StoreEvent.fileUpload ++
            s.session.pending_deletes.map StoreEvent.fileDelete),
         none)) ∧
    (runSessionBody ops freshSessionState = (s, some e) →
      begin_session ops db = (db, [StoreEvent.rollback], some e)) := by
  constructor
  · intro h
    simp only [begin_session, h]
  · intro h
    simp only [begin_session, h]

/-- Witness for C6: a concrete session body exercising both the normal
path (commit, then the upload, then the delete, in order) and the raising
path (rollback only, exception re-raised, rows unchanged). -/
theorem c6_session_commit_then_drain_witness :
    (runSessionBody
        [SessionOp.write "row", SessionOp.queue_upload ⟨"d", "local", "p", "f"⟩,
         SessionOp.queue_delete ⟨"local", "p", "g"⟩] freshSessionState =
      (⟨["row"], ⟨[⟨"d", "local", "p", "f"⟩], [⟨"local", "p", "g"⟩]⟩⟩, none)) ∧
    begin_session
        [SessionOp.write "row", SessionOp.queue_upload ⟨"d", "local", "p", "f"⟩,
         SessionOp.queue_delete ⟨"local", "p", "g"⟩] ["old"] =
      (["old", "row"],
       [StoreEvent.commit, StoreEvent.fileUpload ⟨"d", "local", "p", "f"⟩,
        StoreEvent.fileDelete ⟨"local", "p", "g"⟩],
       none) ∧
    (runSessionBody [SessionOp.write "row", SessionOp.raiseExc "boom"]
        freshSessionState = (⟨["row"], ⟨[], []⟩⟩, some "boom")) ∧
    begin_session [SessionOp.write "row", SessionOp.raiseExc "boom"] ["old"] =
      (["old"], [StoreEvent.rollback], some "boom") :=
  ⟨rfl,
   (c6_session_commit_then_drain
      [SessionOp.write "row", SessionOp.queue_upload ⟨"d", "local", "p", "f"⟩,
       SessionOp.queue_delete ⟨"local", "p", "g"⟩] ["old"]
      ⟨["row"], ⟨[⟨"d", "local", "p", "f"⟩], [⟨"local", "p", "g"⟩]⟩⟩ "boom").1 rfl,
   rfl,
   (c6_session_commit_then_drain [SessionOp.write "row", SessionOp.raiseExc "boom"]
      ["old"] ⟨["row"], ⟨[], []⟩⟩ "boom").2 rfl⟩

/-- C9 (amended): in the persisted JSON serialization of a `Result`,
every `Status` value renders as its string tag, every `datetime` renders
as its ISO-8601 string, every other non-JSON-serializable object renders
as its `str()` coercion, and `NaN` values are serialized as `null`
(rather than elided: the key stays present with value `null`). -/
theorem c9_result_json_encoding :
    (∀ r : ResultModel,
      jsonLookup "status" (encode_result r) = some (.jstr r.status_tag)) ∧
    (∀ (r : ResultModel) (iso : String),
      jsonLookup "start_time" (encode_result { r with start_iso := some iso }) =
        some (.jstr iso)) ∧
    (∀ (r : ResultModel) (iso : String),
      jsonLookup "end_time" (encode_result { r with end_iso := some iso }) =
        some (.jstr iso)) ∧
    (∀ (v : SVal) (s : String), result_encoder v = some s → dumps v = .jstr s) ∧
    dumps .sNan = .jnull ∧
    (∀ r : ResultModel,
      jsonLookup "result" (encode_result { r with result_val := .sNan }) =
        some .jnull) := by
  refine ⟨fun r => rfl, fun r iso => rfl, fun r iso => rfl, ?_, rfl, fun r => rfl⟩
  intro v s h
  cases v <;> simp [result_encoder] at h <;> simp [dumps, h]

/-- Witness for C9: the `result_encoder` clause applied to a concrete
`Status` value. -/
theorem c9_result_json_encoding_witness :
    result_encoder (.sStatus "COMPLETED") = some "COMPLETED" ∧
    dumps (.sStatus "COMPLETED") = .jstr "COMPLETED" :=
  ⟨rfl, c9_result_json_encoding.2.2.2.1 (.sStatus "COMPLETED") "COMPLETED" rfl⟩

/-- Counterexample for C9 as stated: a `Result` whose terminal value is
`NaN` serializes with the `"result"` key present and bound to `null`;
the `NaN` is not elided from the document. -/
theorem c9_nan_not_elided :
    jsonLookup "result"
        (encode_result
          ⟨"d1", "COMPLETED", .sNan, none, none, "/tmp", none, .sNone, .sNone⟩) =
      some .jnull ∧
    some Json.jnull ≠ (none : Option Json) :=
  ⟨rfl, Option.some_ne_none _⟩

/-- Counterexample for C2 as stated: with a concrete executor-resolution
failure (exception `"boom"`), `_run_task` re-raises the exception to its
caller instead of returning a `FAILED` node result. -/
theorem c2_resolution_failure_propagates :
    _run_task 0 "task" (.error "boom") (.ok (.vnone, "", "")) "local"
        (.ok "") (fun _ => none) 0 = .error "boom" ∧
    returnsNodeResult
        (_run_task 0 "task" (.error "boom") (.ok (.vnone, "", "")) "local"
          (.ok "") (fun _ => none) 0) = false :=
  ⟨rfl, rfl⟩

/-- C2 (amended): if resolving the selected executor (looking up the
short-name or applying the config dictionary) raises, `_run_task`
re-raises that exception to its caller; it is exceptions raised while
running the task after successful resolution (for a non-sublattice node,
an exception out of `executor.execute`) that produce a node result with
status `FAILED` and the rendered traceback in its error field. -/
theorem c2_resolution_reraise_execution_failed (node_id : Int)
    (node_name : String) (ex ex2 : String)
    (executeOutcome : Except String (PyVal × String × String))
    (wfshort : String) (subDispatch : Except String String)
    (subLookup : String → Option SubResult) (clock : Nat) :
    _run_task node_id node_name (.error ex) executeOutcome wfshort
        subDispatch subLookup clock = .error ex ∧
    (strStartsWith node_name sublattice_marker = false →
      _run_task node_id node_name (.ok ()) (.error ex2) wfshort
          subDispatch subLookup clock =
        .ok (failedNodeResult node_id clock ex2) ∧
      (failedNodeResult node_id clock ex2).status = some .FAILED ∧
      (failedNodeResult node_id clock ex2).error = some (renderTraceback ex2)) := by
  refine ⟨rfl, fun h => ⟨?_, rfl, rfl⟩⟩
  simp only [_run_task, h, Bool.false_eq_true, if_false]

/-- Witness for C2: the amended behaviour at a concrete non-sublattice
node whose execution raises. -/
theorem c2_resolution_reraise_execution_failed_witness :
    strStartsWith "task" sublattice_marker = false ∧
    _run_task 7 "task" (.ok ()) (.error "ZeroDivisionError") "local"
        (.ok "") (fun _ => none) 3 =
      .ok (failedNodeResult 7 3 "ZeroDivisionError") :=
  ⟨rfl,
   ((c2_resolution_reraise_execution_failed 7 "task" "unused" "ZeroDivisionError"
      (.error "ZeroDivisionError") "local" (.ok "") (fun _ => none) 3).2 rfl).1⟩

/-- C3: for every sublattice node, after awaiting the sub-dispatch's
`Result` from the futures registry, a sub-`Result` whose status is not
`COMPLETED` yields a node result with status `FAILED` and error exactly
`"Sublattice workflow failed to complete"`; a `COMPLETED` sub-`Result`
yields a `COMPLETED` node result whose output is the sub-`Result`'s
encoded final value; in both cases the full sub-`Result` is stored in the
node result's `sublattice_result` field. -/
theorem c3_sublattice_result (node_id : Int) (node_name : String)
    (executeOutcome : Except String (PyVal × String × String))
    (wfshort sub_id : String) (clock : Nat)
    (subLookup : String → Option SubResult) (sub : SubResult)
    (hname : strStartsWith node_name sublattice_marker = true)
    (hwf : (wfshort == "client") = false)
    (hlook : subLookup sub_id = some sub) :
    ∃ nr : NodeResult,
      _run_task node_id node_name (.ok ()) executeOutcome wfshort
          (.ok sub_id) subLookup clock = .ok nr ∧
      nr.sublattice_result = some sub ∧
      (sub.status ≠ .COMPLETED →
        nr.status = some .FAILED ∧
        nr.error = some "Sublattice workflow failed to complete") ∧
      (sub.status = .COMPLETED →
        nr.status = some .COMPLETED ∧
        nr.output = some sub.encoded_result ∧
        nr.error = none) := by
  by_cases h : sub.status = .COMPLETED
  · refine ⟨{ node_id := node_id, start_time := none, end_time := some clock,
              status := some .COMPLETED, output := some sub.encoded_result,
              error := none, stdout := none, stderr := none,
              sublattice_result := some sub },
            ?_, rfl, fun hc => absurd h hc, fun _ => ⟨rfl, rfl, rfl⟩⟩
    simp [_run_task, hname, hwf, hlook, h]
  · refine ⟨{ node_id := node_id, start_time := none, end_time := some clock,
              status := some .FAILED, output := some sub.encoded_result,
              error := some "Sublattice workflow failed to complete",
              stdout := none, stderr := none, sublattice_result := some sub },
            ?_, rfl, fun _ => ⟨rfl, rfl⟩, fun hc => absurd hc h⟩
    simp [_run_task, hname, hwf, hlook, h]

/-- Witness for C3: a concrete sublattice node whose sub-dispatch ends
`FAILED`, and one whose sub-dispatch completes. -/
theorem c3_sublattice_result_witness :
    strStartsWith ":sublattice:inner" sublattice_marker = true ∧
    (("local" == "client") = false) ∧
    ((fun s => if s == "sub1" then some (⟨.FAILED, .vnone⟩ : SubResult) else none)
        "sub1" = some ⟨.FAILED, .vnone⟩) ∧
    (∃ nr : NodeResult,
      _run_task 0 ":sublattice:inner" (.ok ()) (.ok (.vnone, "", "")) "local"
          (.ok "sub1")
          (fun s => if s == "sub1" then some (⟨.FAILED, .vnone⟩ : SubResult) else none)
          5 = .ok nr ∧
      nr.sublattice_result = some ⟨.FAILED, .vnone⟩ ∧
      (Status.FAILED ≠ Status.COMPLETED →
        nr.status = some .FAILED ∧
        nr.error = some "Sublattice workflow failed to complete") ∧
      (Status.FAILED = Status.COMPLETED →
        nr.status = some .COMPLETED ∧
        nr.output = some PyVal.vnone ∧
        nr.error = none)) :=
  ⟨rfl, rfl, rfl,
   c3_sublattice_result 0 ":sublattice:inner" (.ok (.vnone, "", "")) "local"
     "sub1" 5
     (fun s => if s == "sub1" then some (⟨.FAILED, .vnone⟩ : SubResult) else none)
     ⟨.FAILED, .vnone⟩ rfl rfl rfl⟩

/-! ### Input-assembly lemmas (claims C4, C5) -/

theorem edgesLookup_mapSnd (f : List EdgeData → List EdgeData) (hf : f [] = [])
    (es : List ((Nat × Nat) × List EdgeData)) (p c : Nat) :
    edgesLookup (es.map (fun e => (e.fst, f e.snd))) p c =
      f (edgesLookup es p c) := by
  induction es with
  | nil => simpa [edgesLookup] using hf.symm
  | cons e rest ih =>
    obtain ⟨pc, ds⟩ := e
    by_cases h : pc = (p, c) <;> simp [edgesLookup, h, ih]

theorem removeWaitEdges_edge_data (g : TransportGraph) (p c : Nat) :
    (removeWaitEdges g).get_edge_data p c =
      List.filter (fun d => !(d.param_type == "wait_only"))
        (g.get_edge_data p c) :=
  edgesLookup_mapSnd _ rfl g.edges p c

theorem relabelWaitEdges_edge_data (g : TransportGraph) (p c : Nat) :
    (relabelWaitEdges g).get_edge_data p c =
      List.map (fun d =>
          if d.param_type = "wait_only" then { d with param_type := "kwarg" }
          else d)
        (g.get_edge_data p c) :=
  edgesLookup_mapSnd _ rfl g.edges p c

theorem addRegularEdges_filter_wait (v : PyVal) (ds : List EdgeData)
    (ti : TaskInput) :
    addRegularEdges v (List.filter (fun d => !(d.param_type == "wait_only")) ds)
        ti = addRegularEdges v ds ti := by
  induction ds generalizing ti with
  | nil => rfl
  | cons d rest ih =>
    by_cases h : d.param_type == "wait_only"
    · have hw : d.param_type = "wait_only" := eq_of_beq h
      simp [List.filter, h, addRegularEdges, hw, ih]
    · simp [List.filter, h, addRegularEdges, ih]

theorem collectRegular_removeWait (g : TransportGraph)
    (outputs : Nat → Option PyVal) (node_id : Nat) (ps : List Nat)
    (ti : TaskInput) :
    collectRegular (removeWaitEdges g) outputs node_id ps ti =
      collectRegular g outputs node_id ps ti := by
  induction ps generalizing ti with
  | nil => rfl
  | cons p rest ih =>
    simp only [collectRegular, removeWaitEdges_edge_data]
    cases hv : getNodeOutput outputs p with
    | error e => rfl
    | ok v => simp [addRegularEdges_filter_wait, ih]

theorem foldl_dictInsert_relabel (v : PyVal) (ds : List EdgeData)
    (acc : List (String × PyVal)) :
    List.foldl (fun a d => dictInsert a d.edge_name v) acc
        (List.map (fun d =>
          if d.param_type = "wait_only" then { d with param_type := "kwarg" }
          else d) ds) =
      List.foldl (fun a d => dictInsert a d.edge_name v) acc ds := by
  induction ds generalizing acc with
  | nil => rfl
  | cons d rest ih =>
    by_cases hw : d.param_type = "wait_only" <;> simp [hw, ih]

theorem collectDictValues_relabel (g : TransportGraph)
    (outputs : Nat → Option PyVal) (node_id : Nat) (ps : List Nat)
    (acc : List (String × PyVal)) :
    collectDictValues (relabelWaitEdges g) outputs node_id ps acc =
      collectDictValues g outputs node_id ps acc := by
  induction ps generalizing acc with
  | nil => rfl
  | cons p rest ih =>
    simp only [collectDictValues, relabelWaitEdges_edge_data]
    cases hv : getNodeOutput outputs p with
    | error e => rfl
    | ok v => simp only [foldl_dictInsert_relabel, ih]

theorem removeWaitEdges_deps (g : TransportGraph) (i : Nat) :
    (removeWaitEdges g).get_dependencies i = g.get_dependencies i := rfl

theorem relabelWaitEdges_deps (g : TransportGraph) (i : Nat) :
    (relabelWaitEdges g).get_dependencies i = g.get_dependencies i := rfl

/-- C4 (amended): in the regular branch of input assembly, `wait_only`
edges contribute no entry to the assembled `args` or `kwargs` (assembly
is invariant under deleting every `wait_only` edge); but the two
collection branches do not inspect `param_type`: the dict-collection
mapping treats a `wait_only` edge exactly like a `kwarg` edge (assembly
is invariant under relabelling `wait_only` as `kwarg`), and the
list-collection branch never consults the edge records at all, gathering
one entry per parent regardless of edge type. -/
theorem c4_wait_only_edges (g : TransportGraph) (outputs : Nat → Option PyVal)
    (node_id : Nat) (rname dname lname : String)
    (h1 : strStartsWith rname electron_list_marker = false)
    (h2 : strStartsWith rname electron_dict_marker = false)
    (h3 : strStartsWith dname electron_list_marker = false)
    (h4 : strStartsWith dname electron_dict_marker = true)
    (h5 : strStartsWith lname electron_list_marker = true) :
    _get_task_inputs (removeWaitEdges g) outputs node_id rname =
        _get_task_inputs g outputs node_id rname ∧
    _get_task_inputs (relabelWaitEdges g) outputs node_id dname =
        _get_task_inputs g outputs node_id dname ∧
    _get_task_inputs (dropEdges g) outputs node_id lname =
        _get_task_inputs g outputs node_id lname := by
  refine ⟨?_, ?_, ?_⟩
  · simp only [_get_task_inputs, h1, h2, Bool.false_eq_true, if_false,
      removeWaitEdges_deps, collectRegular_removeWait]
  · simp only [_get_task_inputs, h3, h4, Bool.false_eq_true, if_false, if_true,
      relabelWaitEdges_deps, collectDictValues_relabel]
  · simp only [_get_task_inputs, h5, if_true]
    rfl

/-- Counterexample for C4 as stated: on `c4Graph`, the dict-collection
mapping contains the entry keyed `"!waiting_edge"` coming from the
`wait_only` edge (the claim predicts no such entry), and the
list-collection gather contains the output of the parent connected only
through a `wait_only` edge (the claim predicts an empty gather). -/
theorem c4_wait_only_edges_cex :
    xDictKeys (_get_task_inputs c4Graph c4Outputs 1 ":electron_dict:d") =
      ["!waiting_edge"] ∧
    ["!waiting_edge"] ≠ ([] : List String) ∧
    xListLen (_get_task_inputs c4Graph c4Outputs 2 ":electron_list:l") = 1 ∧
    (1 : Nat) ≠ 0 :=
  ⟨rfl, by decide, rfl, by decide⟩

/-- Witness for C4: the three invariances at concrete node names and the
concrete graph `c4Graph`. -/
theorem c4_wait_only_edges_witness :
    strStartsWith "task" electron_list_marker = false ∧
    strStartsWith "task" electron_dict_marker = false ∧
    strStartsWith ":electron_dict:d" electron_list_marker = false ∧
    strStartsWith ":electron_dict:d" electron_dict_marker = true ∧
    strStartsWith ":electron_list:l" electron_list_marker = true ∧
    (_get_task_inputs (removeWaitEdges c4Graph) c4Outputs 1 "task" =
        _get_task_inputs c4Graph c4Outputs 1 "task" ∧
     _get_task_inputs (relabelWaitEdges c4Graph) c4Outputs 1 ":electron_dict:d" =
        _get_task_inputs c4Graph c4Outputs 1 ":electron_dict:d" ∧
     _get_task_inputs (dropEdges c4Graph) c4Outputs 2 ":electron_list:l" =
        _get_task_inputs c4Graph c4Outputs 2 ":electron_list:l") :=
  ⟨rfl, rfl, rfl, rfl, rfl,
   (c4_wait_only_edges c4Graph c4Outputs 1 "task" ":electron_dict:d"
     ":electron_list:l" rfl rfl rfl rfl rfl).1,
   (c4_wait_only_edges c4Graph c4Outputs 1 "task" ":electron_dict:d"
     ":electron_list:l" rfl rfl rfl rfl rfl).2.1,
   (c4_wait_only_edges c4Graph c4Outputs 2 "task" ":electron_dict:d"
     ":electron_list:l" rfl rfl rfl rfl rfl).2.2⟩

theorem collectListValues_eq_map (outputs : Nat → Option PyVal) (ps : List Nat)
    (h : ∀ p ∈ ps, (outputs p).isSome) :
    collectListValues outputs ps =
      .ok (ps.map (fun p => (outputs p).getD .vnone)) := by
  induction ps with
  | nil => rfl
  | cons p rest ih =>
    obtain ⟨v, hv⟩ := Option.isSome_iff_exists.mp (h p (List.mem_cons_self p rest))
    have hrest := ih (fun q hq => h q (List.mem_cons_of_mem p hq))
    simp only [collectListValues, getNodeOutput, hv, hrest]
    show Except.ok (v :: List.map (fun q => (outputs q).getD PyVal.vnone) rest) =
      Except.ok (List.map (fun q => (outputs q).getD PyVal.vnone) (p :: rest))
    simp [hv]

/-- C5 (amended): for every node whose name begins with the
list-collection marker, input assembly produces empty `args` and the
single kwarg `"x"` holding one transportable that wraps the list of the
parents' outputs gathered in dependency order — the order in which
`get_dependencies` returns the parents (edge-insertion order), which is
not in general ascending parent-id order. -/
theorem c5_list_collection (g : TransportGraph) (outputs : Nat → Option PyVal)
    (node_id : Nat) (lname : String)
    (h : strStartsWith lname electron_list_marker = true)
    (houts : ∀ p ∈ g.get_dependencies node_id, (outputs p).isSome) :
    _get_task_inputs g outputs node_id lname =
      .ok ⟨[], [("x", .tobj (.vlist ((g.get_dependencies node_id).map
                    (fun p => (outputs p).getD .vnone))))]⟩ := by
  simp only [_get_task_inputs, h, if_true,
    collectListValues_eq_map outputs _ houts]
  rfl

/-- Counterexample for C5 as stated: on `c5Graph` the gathered list is
`[20, 10]` — the parents' outputs in dependency (edge-insertion) order —
whereas gathering in ascending parent-id order would give `[10, 20]`. -/
theorem c5_list_collection_cex :
    xListInts (_get_task_inputs c5Graph c5Outputs 3 ":electron_list:l") =
      [20, 10] ∧
    [(20 : Int), 10] ≠ [10, 20] :=
  ⟨rfl, by decide⟩

/-- Witness for C5: the amended statement at the concrete graph
`c5Graph`. -/
theorem c5_list_collection_witness :
    strStartsWith ":electron_list:l" electron_list_marker = true ∧
    (∀ p ∈ c5Graph.get_dependencies 3, (c5Outputs p).isSome) ∧
    _get_task_inputs c5Graph c5Outputs 3 ":electron_list:l" =
      .ok ⟨[], [("x", .tobj (.vlist ((c5Graph.get_dependencies 3).map
                    (fun p => (c5Outputs p).getD .vnone))))]⟩ :=
  ⟨rfl, by decide,
   c5_list_collection c5Graph c5Outputs 3 ":electron_list:l" rfl (by decide)⟩

/-! ### Scheduler lemmas (claims C1, C7, C8, C10) -/

theorem applyOutcome_fields (st : WorkflowState) (i : Nat) (o : TaskOutcome) :
    (applyOutcome st i o).submitted = st.submitted ∧
    (applyOutcome st i o).result = st.result ∧
    (applyOutcome st i o).pp_submitted = st.pp_submitted := by
  cases o <;> exact ⟨rfl, rfl, rfl⟩

theorem runNode_submitted_eq (g : TransportGraph) (oracle : Nat → TaskOutcome)
    (n : Nat) (st : WorkflowState) :
    ((runNode g oracle n st).1).submitted = st.submitted ∨
    ((runNode g oracle n st).1).submitted = st.submitted ++ [n] := by
  simp only [runNode]
  split
  · split
    · exact Or.inl rfl
    · exact Or.inl rfl
  · split
    · exact Or.inl rfl
    · exact Or.inr (applyOutcome_fields _ _ _).1

theorem runNode_submitted (g : TransportGraph) (oracle : Nat → TaskOutcome)
    (n : Nat) (st : WorkflowState) :
    ∀ m ∈ ((runNode g oracle n st).1).submitted, m ∈ st.submitted ∨ m = n := by
  intro m hm
  rcases runNode_submitted_eq g oracle n st with h | h
  · rw [h] at hm
    exact Or.inl hm
  · rw [h] at hm
    rcases List.mem_append.mp hm with h' | h'
    · exact Or.inl h'
    · exact Or.inr (List.mem_singleton.mp h')

theorem runNode_result (g : TransportGraph) (oracle : Nat → TaskOutcome)
    (n : Nat) (st : WorkflowState) :
    ((runNode g oracle n st).1).result = st.result := by
  simp only [runNode]
  split
  · split
    · rfl
    · rfl
  · split
    · rfl
    · exact (applyOutcome_fields _ _ _).2.1

theorem runNode_pp (g : TransportGraph) (oracle : Nat → TaskOutcome)
    (n : Nat) (st : WorkflowState) :
    ((runNode g oracle n st).1).pp_submitted = st.pp_submitted := by
  simp only [runNode]
  split
  · split
    · rfl
    · rfl
  · split
    · rfl
    · exact (applyOutcome_fields _ _ _).2.2

theorem runLayerNodes_submitted (g : TransportGraph)
    (oracle : Nat → TaskOutcome) :
    ∀ (L : List Nat) (st : WorkflowState),
      ∀ m ∈ ((runLayerNodes g oracle L st).1).submitted,
        m ∈ st.submitted ∨ m ∈ L := by
  intro L
  induction L with
  | nil => intro st m hm; exact Or.inl hm
  | cons n ns ih =>
    intro st m hm
    simp only [runLayerNodes] at hm
    cases hr : runNode g oracle n st with
    | mk st' e =>
      rw [hr] at hm
      cases e with
      | some err =>
        have hm' : m ∈ st'.submitted := hm
        have hn := runNode_submitted g oracle n st m (by rw [hr]; exact hm')
        rcases hn with h | h
        · exact Or.inl h
        · exact Or.inr (by simp [h])
      | none =>
        have hm' : m ∈ ((runLayerNodes g oracle ns st').1).submitted := hm
        rcases ih st' m hm' with h | h
        · have hn := runNode_submitted g oracle n st m (by rw [hr]; exact h)
          rcases hn with h2 | h2
          · exact Or.inl h2
          · exact Or.inr (by simp [h2])
        · exact Or.inr (List.mem_cons_of_mem n h)

theorem runLayerNodes_result (g : TransportGraph) (oracle : Nat → TaskOutcome) :
    ∀ (L : List Nat) (st : WorkflowState),
      ((runLayerNodes g oracle L st).1).result = st.result := by
  intro L
  induction L with
  | nil => intro st; rfl
  | cons n ns ih =>
    intro st
    simp only [runLayerNodes]
    cases hr : runNode g oracle n st with
    | mk st' e =>
      cases e with
      | some err =>
        have h := runNode_result g oracle n st
        rw [hr] at h
        exact h
      | none =>
        have h := runNode_result g oracle n st
        rw [hr] at h
        rw [ih st', h]

theorem runLayerNodes_pp (g : TransportGraph) (oracle : Nat → TaskOutcome) :
    ∀ (L : List Nat) (st : WorkflowState),
      ((runLayerNodes g oracle L st).1).pp_submitted = st.pp_submitted := by
  intro L
  induction L with
  | nil => intro st; rfl
  | cons n ns ih =>
    intro st
    simp only [runLayerNodes]
    cases hr : runNode g oracle n st with
    | mk st' e =>
      cases e with
      | some err =>
        have h := runNode_pp g oracle n st
        rw [hr] at h
        exact h
      | none =>
        have h := runNode_pp g oracle n st
        rw [hr] at h
        rw [ih st', h]

theorem scanLayer_some (g : TransportGraph) :
    ∀ (L : List Nat) (st st' : WorkflowState), scanLayer g L st = some st' →
      st'.submitted = st.submitted ∧ st'.result = st.result ∧
      st'.pp_submitted = st.pp_submitted := by
  intro L
  induction L with
  | nil => intro st st' h; exact Option.noConfusion h
  | cons n ns ih =>
    intro st st' h
    simp only [scanLayer] at h
    by_cases h1 : (st.getNodeState n).status = .FAILED
    · rw [if_pos h1] at h
      obtain rfl : failState g st n = st' := Option.some.inj h
      exact ⟨rfl, rfl, rfl⟩
    · rw [if_neg h1] at h
      by_cases h2 : (st.getNodeState n).status = .CANCELLED
      · rw [if_pos h2] at h
        obtain rfl : cancelState st = st' := Option.some.inj h
        exact ⟨rfl, rfl, rfl⟩
      · rw [if_neg h2] at h
        exact ih st st' h

theorem runLayers_cons_exc (g : TransportGraph) (oracle : Nat → TaskOutcome)
    (L : List Nat) (rest : List (List Nat)) (st st' : WorkflowState) (e : String)
    (h : runLayerNodes g oracle L st = (st', some e)) :
    runLayers g oracle (L :: rest) st = ⟨st', some e, false⟩ := by
  simp only [runLayers, h]

theorem runLayers_cons_scan (g : TransportGraph) (oracle : Nat → TaskOutcome)
    (L : List Nat) (rest : List (List Nat)) (st st' st'' : WorkflowState)
    (h : runLayerNodes g oracle L st = (st', none))
    (hs : scanLayer g L st' = some st'') :
    runLayers g oracle (L :: rest) st = ⟨st'', none, true⟩ := by
  simp only [runLayers, h, hs]

theorem runLayers_cons_next (g : TransportGraph) (oracle : Nat → TaskOutcome)
    (L : List Nat) (rest : List (List Nat)) (st st' : WorkflowState)
    (h : runLayerNodes g oracle L st = (st', none))
    (hs : scanLayer g L st' = none) :
    runLayers g oracle (L :: rest) st = runLayers g oracle rest st' := by
  simp only [runLayers, h, hs]

theorem runLayers_submitted (g : TransportGraph) (oracle : Nat → TaskOutcome) :
    ∀ (ls : List (List Nat)) (st : WorkflowState),
      ∀ m ∈ ((runLayers g oracle ls st).state).submitted,
        m ∈ st.submitted ∨ ∃ K ∈ ls, m ∈ K := by
  intro ls
  induction ls with
  | nil => intro st m hm; exact Or.inl hm
  | cons L rest ih =>
    intro st m hm
    cases hr : runLayerNodes g oracle L st with
    | mk st' e =>
      cases e with
      | some err =>
        rw [runLayers_cons_exc g oracle L rest st st' err hr] at hm
        rcases runLayerNodes_submitted g oracle L st m (by rw [hr]; exact hm)
          with h | h
        · exact Or.inl h
        · exact Or.inr ⟨L, List.mem_cons_self L rest, h⟩
      | none =>
        cases hs : scanLayer g L st' with
        | some st'' =>
          rw [runLayers_cons_scan g oracle L rest st st' st'' hr hs] at hm
          have hm' : m ∈ st''.submitted := hm
          rw [(scanLayer_some g L st' st'' hs).1] at hm'
          rcases runLayerNodes_submitted g oracle L st m (by rw [hr]; exact hm')
            with h | h
          · exact Or.inl h
          · exact Or.inr ⟨L, List.mem_cons_self L rest, h⟩
        | none =>
          rw [runLayers_cons_next g oracle L rest st st' hr hs] at hm
          rcases ih st' m hm with h | h
          · rcases runLayerNodes_submitted g oracle L st m (by rw [hr]; exact h)
              with h2 | h2
            · exact Or.inl h2
            · exact Or.inr ⟨L, List.mem_cons_self L rest, h2⟩
          · obtain ⟨K, hK, hmK⟩ := h
            exact Or.inr ⟨K, List.mem_cons_of_mem L hK, hmK⟩

theorem runLayers_result (g : TransportGraph) (oracle : Nat → TaskOutcome) :
    ∀ (ls : List (List Nat)) (st : WorkflowState),
      ((runLayers g oracle ls st).state).result = st.result := by
  intro ls
  induction ls with
  | nil => intro st; rfl
  | cons L rest ih =>
    intro st
    cases hr : runLayerNodes g oracle L st with
    | mk st' e =>
      have h := runLayerNodes_result g oracle L st
      rw [hr] at h
      cases e with
      | some err => rw [runLayers_cons_exc g oracle L rest st st' err hr]; exact h
      | none =>
        cases hs : scanLayer g L st' with
        | some st'' =>
          rw [runLayers_cons_scan g oracle L rest st st' st'' hr hs]
          exact ((scanLayer_some g L st' st'' hs).2.1).trans h
        | none =>
          rw [runLayers_cons_next g oracle L rest st st' hr hs]
          exact (ih st').trans h

theorem runLayers_pp (g : TransportGraph) (oracle : Nat → TaskOutcome) :
    ∀ (ls : List (List Nat)) (st : WorkflowState),
      ((runLayers g oracle ls st).state).pp_submitted = st.pp_submitted := by
  intro ls
  induction ls with
  | nil => intro st; rfl
  | cons L rest ih =>
    intro st
    cases hr : runLayerNodes g oracle L st with
    | mk st' e =>
      have h := runLayerNodes_pp g oracle L st
      rw [hr] at h
      cases e with
      | some err => rw [runLayers_cons_exc g oracle L rest st st' err hr]; exact h
      | none =>
        cases hs : scanLayer g L st' with
        | some st'' =>
          rw [runLayers_cons_scan g oracle L rest st st' st'' hr hs]
          exact ((scanLayer_some g L st' st'' hs).2.2).trans h
        | none =>
          rw [runLayers_cons_next g oracle L rest st st' hr hs]
          exact (ih st').trans h

theorem runLayers_append (g : TransportGraph) (oracle : Nat → TaskOutcome)
    (pre rest : List (List Nat)) :
    ∀ (st0 st1 : WorkflowState),
      runLayers g oracle pre st0 = ⟨st1, none, false⟩ →
      runLayers g oracle (pre ++ rest) st0 = runLayers g oracle rest st1 := by
  induction pre with
  | nil =>
    intro st0 st1 h
    obtain rfl : st0 = st1 := congrArg SchedResult.state h
    rfl
  | cons L ps ih =>
    intro st0 st1 h
    rw [List.cons_append]
    cases hr : runLayerNodes g oracle L st0 with
    | mk st' e =>
      cases e with
      | some err =>
        rw [runLayers_cons_exc g oracle L ps st0 st' err hr] at h
        exact absurd (congrArg SchedResult.exc h) (by simp)
      | none =>
        cases hs : scanLayer g L st' with
        | some st'' =>
          rw [runLayers_cons_scan g oracle L ps st0 st' st'' hr hs] at h
          exact absurd (congrArg SchedResult.aborted h) (by simp)
        | none =>
          rw [runLayers_cons_next g oracle L ps st0 st' hr hs] at h
          rw [runLayers_cons_next g oracle L (ps ++ rest) st0 st' hr hs]
          exact ih st' st1 h

theorem scanLayer_of_firstBad (g : TransportGraph) :
    ∀ (L : List Nat) (st : WorkflowState) (n : Nat),
      firstBadNode st L = some n →
      ((st.getNodeState n).status = .FAILED →
        scanLayer g L st = some (failState g st n)) ∧
      ((st.getNodeState n).status = .CANCELLED →
        scanLayer g L st = some (cancelState st)) := by
  intro L
  induction L with
  | nil => intro st n h; exact Option.noConfusion h
  | cons m ms ih =>
    intro st n h
    by_cases hb : (st.getNodeState m).status = .FAILED ∨
        (st.getNodeState m).status = .CANCELLED
    · have hn : m = n := by
        simp only [firstBadNode, if_pos hb] at h
        exact Option.some.inj h
      subst hn
      constructor
      · intro hf
        simp only [scanLayer, if_pos hf]
      · intro hc
        have hnf : ¬(st.getNodeState m).status = .FAILED := by
          rw [hc]; decide
        simp only [scanLayer, if_neg hnf, if_pos hc]
    · have hh : firstBadNode st (m :: ms) = firstBadNode st ms := by
        simp only [firstBadNode, if_neg hb]
      rw [hh] at h
      have hnf : ¬(st.getNodeState m).status = .FAILED := fun hf => hb (Or.inl hf)
      have hnc : ¬(st.getNodeState m).status = .CANCELLED :=
        fun hc => hb (Or.inr hc)
      obtain ⟨ih1, ih2⟩ := ih st n h
      constructor
      · intro hf
        simp only [scanLayer, if_neg hnf, if_neg hnc]
        exact ih1 hf
      · intro hc
        simp only [scanLayer, if_neg hnf, if_neg hnc]
        exact ih2 hc

/-- C1 (amended): when a wave has finished, the scheduler scans it in
order and the first node found `FAILED` or `CANCELLED` decides the
workflow's fate: if that node is `FAILED`, the workflow status becomes
`FAILED` with error `"Node <name> failed: \n<error>"` taken from that
node; if it is `CANCELLED`, the workflow status becomes `CANCELLED`; in
both cases the scheduler returns at once, so no node of a later layer is
ever submitted (everything submitted belongs to the layers up to and
including the aborting wave).  In particular, in a mixed wave an earlier
`CANCELLED` node wins over a later `FAILED` one. -/
theorem c1_first_bad_node_ends_workflow (g : TransportGraph)
    (oracle : Nat → TaskOutcome) (pre post : List (List Nat)) (L : List Nat)
    (st0 st1 st2 : WorkflowState) (n : Nat)
    (hpre : runLayers g oracle pre st0 = ⟨st1, none, false⟩)
    (hwave : runLayerNodes g oracle L st1 = (st2, none))
    (hbad : firstBadNode st2 L = some n) :
    ((st2.getNodeState n).status = .FAILED →
      runLayers g oracle (pre ++ L :: post) st0 =
        ⟨failState g st2 n, none, true⟩ ∧
      (failState g st2 n).status = .FAILED ∧
      (failState g st2 n).error =
        some ("Node " ++ g.get_node_name n ++ " failed: \n" ++
              optStr (st2.getNodeState n).error) ∧
      ∀ m ∈ (failState g st2 n).submitted,
        m ∈ st0.submitted ∨ (∃ K ∈ pre, m ∈ K) ∨ m ∈ L) ∧
    ((st2.getNodeState n).status = .CANCELLED →
      runLayers g oracle (pre ++ L :: post) st0 = ⟨cancelState st2, none, true⟩ ∧
      (cancelState st2).status = .CANCELLED ∧
      ∀ m ∈ (cancelState st2).submitted,
        m ∈ st0.submitted ∨ (∃ K ∈ pre, m ∈ K) ∨ m ∈ L) := by
  have happ := runLayers_append g oracle pre (L :: post) st0 st1 hpre
  obtain ⟨s1, s2⟩ := scanLayer_of_firstBad g L st2 n hbad
  have hsub : ∀ m ∈ st2.submitted,
      m ∈ st0.submitted ∨ (∃ K ∈ pre, m ∈ K) ∨ m ∈ L := by
    intro m hm
    rcases runLayerNodes_submitted g oracle L st1 m (by rw [hwave]; exact hm)
      with h | h
    · have h1 : m ∈ ((runLayers g oracle pre st0).state).submitted := by
        rw [hpre]; exact h
      rcases runLayers_submitted g oracle pre st0 m h1 with h2 | h2
      · exact Or.inl h2
      · exact Or.inr (Or.inl h2)
    · exact Or.inr (Or.inr h)
  constructor
  · intro hf
    have hscan := s1 hf
    refine ⟨happ.trans
      (runLayers_cons_scan g oracle L post st1 st2 (failState g st2 n)
        hwave hscan), rfl, rfl, ?_⟩
    intro m hm
    exact hsub m hm
  · intro hc
    have hscan := s2 hc
    refine ⟨happ.trans
      (runLayers_cons_scan g oracle L post st1 st2 (cancelState st2)
        hwave hscan), rfl, ?_⟩
    intro m hm
    exact hsub m hm

/-- Counterexample for C1 as stated: in the mixed wave of `c1Graph`
(node 0 `CANCELLED`, node 1 `FAILED`) the scheduler scans node 0 first
and sets the workflow status to `CANCELLED`, not `FAILED` as the claim
predicts; and for the single failing node of `c1bGraph` the recorded
workflow error is `"Node t1 failed: \nboom"` — with a newline after the
colon — not the claim's `"Node t1 failed: boom"`. -/
theorem c1_first_bad_node_ends_workflow_cex :
    ((_run_planned_workflow c1Graph c1Oracle "local"
        (TaskOutcome.completed .vnone "" "") (initialState c1Graph)).1).status =
      .CANCELLED ∧
    Status.CANCELLED ≠ Status.FAILED ∧
    ((_run_planned_workflow c1bGraph c1bOracle "local"
        (TaskOutcome.completed .vnone "" "") (initialState c1bGraph)).1).error =
      some "Node t1 failed: \nboom" ∧
    "Node t1 failed: \nboom" ≠ "Node t1 failed: boom" :=
  ⟨rfl, by decide, rfl, by decide⟩

/-- Witness for C1: the amended statement at the two-wave graph
`c1wGraph`, whose first wave's first bad node (node 0) is `FAILED`. -/
theorem c1_first_bad_node_ends_workflow_witness :
    runLayers c1wGraph c1wOracle [] c1wSt0 = ⟨c1wSt0, none, false⟩ ∧
    runLayerNodes c1wGraph c1wOracle [0, 1] c1wSt0 = (c1wSt2, none) ∧
    firstBadNode c1wSt2 [0, 1] = some 0 ∧
    (c1wSt2.getNodeState 0).status = .FAILED ∧
    runLayers c1wGraph c1wOracle ([] ++ [0, 1] :: [[2]]) c1wSt0 =
      ⟨failState c1wGraph c1wSt2 0, none, true⟩ ∧
    (failState c1wGraph c1wSt2 0).status = .FAILED ∧
    (failState c1wGraph c1wSt2 0).error =
      some ("Node " ++ c1wGraph.get_node_name 0 ++ " failed: \n" ++
            optStr (c1wSt2.getNodeState 0).error) :=
  ⟨rfl, rfl, rfl, rfl,
   ((c1_first_bad_node_ends_workflow c1wGraph c1wOracle [] [[2]] [0, 1]
      c1wSt0 c1wSt0 c1wSt2 0 rfl rfl rfl).1 rfl).1,
   ((c1_first_bad_node_ends_workflow c1wGraph c1wOracle [] [[2]] [0, 1]
      c1wSt0 c1wSt0 c1wSt2 0 rfl rfl rfl).1 rfl).2.1,
   ((c1_first_bad_node_ends_workflow c1wGraph c1wOracle [] [[2]] [0, 1]
      c1wSt0 c1wSt0 c1wSt2 0 rfl rfl rfl).1 rfl).2.2.1⟩

/-- C7: for every dispatch whose workflow (post-processing) executor
short-name is `"client"`, once every wave has run without an abort the
scheduler sets the workflow status to `PENDING_POSTPROCESSING`, stamps
`end_time`, and returns with the `Result`'s `result` field never
assigned and no post-process task submitted. -/
theorem c7_client_pending_postprocessing (g : TransportGraph)
    (oracle : Nat → TaskOutcome) (ppo : TaskOutcome) (st0 st1 : WorkflowState)
    (hres : st0.result = none) (hpp : st0.pp_submitted = false)
    (hrun : runLayers g oracle g.layers (startRun st0) = ⟨st1, none, false⟩) :
    ∃ stf, _run_planned_workflow g oracle "client" ppo st0 = (stf, none) ∧
      stf.status = .PENDING_POSTPROCESSING ∧
      stf.end_time = some st1.clock ∧
      stf.result = none ∧
      stf.pp_submitted = false := by
  have h1 : st1.result = none := by
    have h := runLayers_result g oracle g.layers (startRun st0)
    rw [hrun] at h
    rw [h]
    exact hres
  have h2 : st1.pp_submitted = false := by
    have h := runLayers_pp g oracle g.layers (startRun st0)
    rw [hrun] at h
    rw [h]
    exact hpp
  have hrw : _run_planned_workflow g oracle "client" ppo st0 =
      ({ st1 with
          status := .PENDING_POSTPROCESSING,
          end_time := some st1.clock,
          clock := st1.clock + 1 }, none) := by
    simp only [_run_planned_workflow, hrun]
    rfl
  exact ⟨_, hrw, rfl, rfl, h1, h2⟩

/-- Witness for C7: the single-parameter-node dispatch `c7Graph` under
the `"client"` post-processing executor. -/
theorem c7_client_pending_postprocessing_witness :
    c7Init.result = none ∧
    c7Init.pp_submitted = false ∧
    runLayers c7Graph c7Oracle c7Graph.layers (startRun c7Init) =
      ⟨c7St1, none, false⟩ ∧
    (_run_planned_workflow c7Graph c7Oracle "client" TaskOutcome.cancelled
        c7Init).2 = none ∧
    ((_run_planned_workflow c7Graph c7Oracle "client" TaskOutcome.cancelled
        c7Init).1).status = .PENDING_POSTPROCESSING ∧
    ((_run_planned_workflow c7Graph c7Oracle "client" TaskOutcome.cancelled
        c7Init).1).end_time = some c7St1.clock ∧
    ((_run_planned_workflow c7Graph c7Oracle "client" TaskOutcome.cancelled
        c7Init).1).result = none ∧
    ((_run_planned_workflow c7Graph c7Oracle "client" TaskOutcome.cancelled
        c7Init).1).pp_submitted = false := by
  refine ⟨rfl, rfl, rfl, ?_⟩
  obtain ⟨stf, heq, hs, he, hr, hp⟩ :=
    c7_client_pending_postprocessing c7Graph c7Oracle TaskOutcome.cancelled
      c7Init c7St1 rfl rfl rfl
  rw [heq]
  exact ⟨rfl, hs, he, hr, hp⟩

theorem list_getD_set_self {α : Type} :
    ∀ (l : List α) (i : Nat) (v d : α), i < l.length →
      (l.set i v).getD i d = v := by
  intro l
  induction l with
  | nil => intro i v d h; exact absurd h (Nat.not_lt_zero i)
  | cons a as ih =>
    intro i v d h
    cases i with
    | zero => rfl
    | succ j => exact ih j v d (Nat.lt_of_succ_lt_succ h)

/-- C8 (amended): a node whose name begins with a parameter, subscript,
attribute, or generator-projection marker is evaluated inline: no
executor job is submitted, the node is recorded `COMPLETED`, and its
`start_time` and `end_time` are two consecutive clock readings (so
`start_time` immediately precedes — but does not in general equal —
`end_time`).  Parameter nodes take their `value` attribute; attribute
nodes read `attribute_name` off the sole parent's output; subscript and
generator nodes index the sole parent's output by `key`. -/
theorem c8_pure_nodes_inline (g : TransportGraph) (oracle : Nat → TaskOutcome)
    (n : Nat) (st : WorkflowState) (out : PyVal)
    (hp : isPureName (g.get_node_name n) = true)
    (ho : computePureOutput g st n = some out)
    (hn : n < st.node_states.length) :
    (∃ st', runNode g oracle n st = (st', none) ∧
      st'.submitted = st.submitted ∧
      st'.pp_submitted = st.pp_submitted ∧
      (st'.getNodeState n).status = .COMPLETED ∧
      (st'.getNodeState n).output = some out ∧
      (st'.getNodeState n).start_time = some st.clock ∧
      (st'.getNodeState n).end_time = some (st.clock + 1)) ∧
    (strStartsWith (g.get_node_name n) parameter_marker = true →
      out = (g.getNode n).value) ∧
    (strStartsWith (g.get_node_name n) parameter_marker = false →
      ∃ p ps pout, g.get_dependencies n = p :: ps ∧
        (st.getNodeState p).output = some pout ∧
        (strStartsWith (g.get_node_name n) attr_marker = true →
          pyGetattr pout (g.getNode n).attribute_name = some out) ∧
        (strStartsWith (g.get_node_name n) attr_marker = false →
          pyIndex pout (g.getNode n).key = some out)) := by
  have hrun : runNode g oracle n st =
      ({ st with
          clock := st.clock + 1 + 1,
          node_states := st.node_states.set n
            { st.getNodeState n with
                status := .COMPLETED,
                start_time := some st.clock,
                end_time := some (st.clock + 1),
                output := some out } }, none) := by
    simp only [runNode, hp, if_true, ho]
    rfl
  have hset : (st.node_states.set n
      { st.getNodeState n with
          status := .COMPLETED,
          start_time := some st.clock,
          end_time := some (st.clock + 1),
          output := some out }).getD n default =
      { st.getNodeState n with
          status := .COMPLETED,
          start_time := some st.clock,
          end_time := some (st.clock + 1),
          output := some out } :=
    list_getD_set_self _ _ _ _ hn
  refine ⟨⟨_, hrun, rfl, rfl,
    congrArg NodeState.status hset, congrArg NodeState.output hset,
    congrArg NodeState.start_time hset, congrArg NodeState.end_time hset⟩,
    ?_, ?_⟩
  · intro hpar
    simp only [computePureOutput, hpar, if_true] at ho
    exact (Option.some.inj ho).symm
  · intro hnpar
    simp only [computePureOutput, hnpar, Bool.false_eq_true, if_false] at ho
    cases hd : g.get_dependencies n with
    | nil =>
      simp only [hd] at ho
      exact Option.noConfusion ho
    | cons p ps =>
      simp only [hd] at ho
      cases hout : (st.getNodeState p).output with
      | none =>
        simp only [hout] at ho
        exact Option.noConfusion ho
      | some pout =>
        simp only [hout] at ho
        refine ⟨p, ps, pout, rfl, hout, ?_, ?_⟩
        · intro hattr
          rw [if_pos hattr] at ho
          exact ho
        · intro hnattr
          have hf : ¬(strStartsWith (g.get_node_name n) attr_marker = true) := by
            simp [hnattr]
          rw [if_neg hf] at ho
          exact ho

/-- Counterexample for C8 as stated: running `c8Graph`'s parameter node
through the scheduler records `start_time = 1` and `end_time = 2` — two
distinct consecutive clock readings, not equal timestamps (the source
calls `datetime.now` separately for each field). -/
theorem c8_pure_nodes_inline_cex :
    (((_run_planned_workflow c8Graph c8Oracle "client" TaskOutcome.cancelled
        (initialState c8Graph)).1).getNodeState 0).start_time = some 1 ∧
    (((_run_planned_workflow c8Graph c8Oracle "client" TaskOutcome.cancelled
        (initialState c8Graph)).1).getNodeState 0).end_time = some 2 ∧
    (some 1 : Option Nat) ≠ some 2 :=
  ⟨rfl, rfl, by decide⟩

/-- Witness for C8: the parameter node of `c8Graph` evaluated inline. -/
theorem c8_pure_nodes_inline_witness :
    isPureName (c8Graph.get_node_name 0) = true ∧
    computePureOutput c8Graph c8Init 0 = some (.tobj (.vint 7)) ∧
    ((runNode c8Graph c8Oracle 0 c8Init).1).submitted = c8Init.submitted ∧
    (((runNode c8Graph c8Oracle 0 c8Init).1).getNodeState 0).status =
      .COMPLETED ∧
    (((runNode c8Graph c8Oracle 0 c8Init).1).getNodeState 0).output =
      some (.tobj (.vint 7)) ∧
    (PyVal.tobj (.vint 7)) = (c8Graph.getNode 0).value := by
  obtain ⟨⟨st', heq, h1, h2, h3, h4, h5, h6⟩, hk1, hk2⟩ :=
    c8_pure_nodes_inline c8Graph c8Oracle 0 c8Init (.tobj (.vint 7))
      rfl rfl (by decide)
  have hfst : (runNode c8Graph c8Oracle 0 c8Init).1 = st' := by rw [heq]
  rw [hfst]
  exact ⟨rfl, rfl, h1, h3, h4, hk1 rfl⟩

/-- C10: for every dispatch, if planning or running the workflow raises
any exception, `run_workflow` catches it and returns a `Result` whose
status is `FAILED`, whose `end_time` is stamped, and whose error is the
rendered traceback of that exception; the exception does not propagate
to the caller (`run_workflow` always returns a result state). -/
theorem c10_run_workflow_catches (g : TransportGraph)
    (oracle : Nat → TaskOutcome) (ppExec : String) (ppo : TaskOutcome)
    (st : WorkflowState) (e : String)
    (h : _run_planned_workflow g oracle ppExec ppo (initialState g) =
      (st, some e)) :
    run_workflow g oracle ppExec ppo =
      { st with
          status := .FAILED,
          end_time := some st.clock,
          clock := st.clock + 1,
          error := some (renderTraceback e) } ∧
    (run_workflow g oracle ppExec ppo).status = .FAILED ∧
    (run_workflow g oracle ppExec ppo).error = some (renderTraceback e) ∧
    (run_workflow g oracle ppExec ppo).end_time = some st.clock := by
  have h0 : ¬((initialState g).status = Status.COMPLETED) :=
    fun hc => Status.noConfusion hc
  have hrw : run_workflow g oracle ppExec ppo =
      { st with
          status := .FAILED,
          end_time := some st.clock,
          clock := st.clock + 1,
          error := some (renderTraceback e) } := by
    simp only [run_workflow, if_neg h0, h]
    rfl
  exact ⟨hrw, by rw [hrw], by rw [hrw], by rw [hrw]⟩

/-- Witness for C10: on `c10Graph` the input assembly of node 0 raises
(`KeyError` on the missing parent output) and `run_workflow` returns the
`FAILED` result carrying the rendered traceback. -/
theorem c10_run_workflow_catches_witness :
    _run_planned_workflow c10Graph c10Oracle "local"
        (TaskOutcome.completed .vnone "" "") (initialState c10Graph) =
      (c10St, some "KeyError: output") ∧
    (run_workflow c10Graph c10Oracle "local"
        (TaskOutcome.completed .vnone "" "")).status = .FAILED ∧
    (run_workflow c10Graph c10Oracle "local"
        (TaskOutcome.completed .vnone "" "")).error =
      some (renderTraceback "KeyError: output") ∧
    (run_workflow c10Graph c10Oracle "local"
        (TaskOutcome.completed .vnone "" "")).end_time = some c10St.clock :=
  ⟨rfl,
   (c10_run_workflow_catches c10Graph c10Oracle "local"
     (TaskOutcome.completed .vnone "" "") c10St "KeyError: output" rfl).2.1,
   (c10_run_workflow_catches c10Graph c10Oracle "local"
     (TaskOutcome.completed .vnone "" "") c10St "KeyError: output" rfl).2.2.1,
   (c10_run_workflow_catches c10Graph c10Oracle "local"
     (TaskOutcome.completed .vnone "" "") c10St "KeyError: output" rfl).2.2.2⟩

end Covalent
